import Mathlib

/-!
Shallow embedding of `.github/vpc_destroy.py` (VPC teardown utility).

The script drives the AWS control plane through boto3.  We embed it as pure
functions over an `Env` record holding the responses the provider would give
to each describe call site (each field corresponds to one read site, since the
script reads fresh state at each site), and each provider mutation
(delete / detach / disassociate / terminate / associate calls), together with
the text printed by `print` and by `logger.error`, is recorded as one event in
an emitted trace.  `logger.info` / `logger.debug` diagnostics are not recorded.
Time in the ENI wait loop is the accumulated `time.sleep` duration, threaded
as a natural-number clock.
-/

namespace VpcDestroy

/-- Kind of a boto3 `ClientError` (or `sys.exit`-worthy auth failure) raised by
a describe call; the Python code catches `ClientError` without inspecting it. -/
inductive ClientErrorKind where
  | authFailure
  | notFound
  | otherError
deriving DecidableEq

/-- An Elastic IP address record returned by `describe_addresses`. -/
structure Eip where
  associationId : String
  allocationId : String
deriving DecidableEq

/-- An EC2 instance as seen from `vpc.subnets.all()[..].instances.all()`,
with the addresses that `describe_addresses` filtered on its id returns. -/
structure Ec2Instance where
  instanceId : String
  eips : List Eip
deriving DecidableEq

/-- A subnet as iterated in `destroy_ec2` (only its instances are used there). -/
structure SubnetEc2 where
  instances : List Ec2Instance
deriving DecidableEq

/-- One entry of `describe_transit_gateway_attachments`. -/
structure TgwAttachment where
  resourceId : String
  transitGatewayAttachmentId : String
deriving DecidableEq

/-- One entry of `describe_vpc_peering_connections`. -/
structure Peering where
  vpcPeeringConnectionId : String
  accepterVpcId : String
  requesterVpcId : String
deriving DecidableEq

/-- One entry of `vpc.network_acls.all()`. -/
structure Nacl where
  networkAclId : String
  isDefault : Bool
deriving DecidableEq

/-- One entry of `describe_network_interfaces`; `attachmentId` is `some` when
the dict carries the `AttachmentId` key the loop tests for. -/
structure Eni where
  networkInterfaceId : String
  attachmentId : Option String
deriving DecidableEq

/-- One entry of `vpc.subnets.all()` in `delete_vpc`, with the network
interfaces still listed under it. -/
structure Subnet where
  subnetId : String
  networkInterfaceIds : List String
deriving DecidableEq

/-- One route of a route table. -/
structure Route where
  origin : String
  destinationCidrBlock : String
deriving DecidableEq

/-- One association of a route table. -/
structure RtAssoc where
  main : Bool
  routeTableAssociationId : String
deriving DecidableEq

/-- One entry of `describe_route_tables`. -/
structure RouteTable where
  routeTableId : String
  routes : List Route
  associations : List RtAssoc
deriving DecidableEq

/-- One entry of `vpc.security_groups.all()`. -/
structure SecurityGroup where
  groupId : String
  groupName : String
deriving DecidableEq

/-- Provider responses, one field per describe call site of the script.
`eniSchedule` gives the `describe_network_interfaces` response to the n-th
describe issued inside the ENI wait loop (the loop describes twice per
iteration: once for the emptiness test, once to list the batch it acts on). -/
structure Env where
  describeVpcsAll : Except ClientErrorKind Unit
  describeVpcsById : Except ClientErrorKind Unit
  subnetsEc2 : List SubnetEc2
  reservations1 : List (List String)
  reservations2 : List (List String)
  tgwAttachments : List TgwAttachment
  natGateways1 : List String
  peerings : List Peering
  endpoints : List String
  nacls : List Nacl
  eniSchedule : Nat → List Eni
  subnets : List Subnet
  routeTables : List RouteTable
  natGateways2 : List String
  igws : List String
  securityGroups : List SecurityGroup

/-- One observable action of the script: a provider mutation, a `print`, or a
`logger.error` line. -/
inductive Ev where
  | msg (s : String)
  | logError (s : String)
  | disassociateAddress (associationId : String)
  | releaseAddress (allocationId : String)
  | terminateInstances (ids : List String)
  | waitTerminated (ids : List String)
  | deleteTgwAttachment (id : String)
  | deleteNatGateway (id : String)
  | associateDhcpOptions (vpcId : String)
  | deleteVpcPeering (id : String)
  | deleteVpcEndpoint (id : String)
  | deleteNetworkAcl (id : String)
  | detachNetworkInterface (id : String)
  | deleteNetworkInterface (id : String)
  | deleteSubnet (id : String)
  | deleteRoute (routeTableId : String) (cidr : String)
  | disassociateRouteTable (associationId : String)
  | deleteRouteTable (id : String)
  | detachInternetGateway (id : String)
  | deleteInternetGateway (id : String)
  | deleteSecurityGroup (id : String)
  | deleteVpcCall (id : String)
deriving DecidableEq

/-- True for events that mutate provider state (every event other than the
`print` / `logger.error` output events). -/
def isMutation : Ev → Bool
  | Ev.msg _ => false
  | Ev.logError _ => false
  | _ => true

/-- The text printed when a VPC is not found (source: the f-string
`VPC {vpc_id} does not exist in {aws_region}`). -/
def vpcAbsentMsg (vpc_id aws_region : String) : String :=
  "VPC " ++ vpc_id ++ " does not exist in " ++ aws_region

/-- The refusal text printed when running instances are found (source: the
f-string in `delete_vpc`). -/
def runningMsg (vpc_id : String) : String :=
  "Running EC2 instances exist in " ++ vpc_id ++
    ". Please use --services ec2 to invoke the program."

/-- The credentials-failure text of `destroy_ec2` (the source spells the verb
with a contraction, elided here). -/
def credsMsg : String :=
  "Either your credentials are invalid or your IAM user does not have permissions to list VPCs"

/-- `vpc_exists(ec2client, vpc_id)`: a `describe_vpcs(VpcIds=[vpc_id])` call
wrapped in `try/except ClientError`; any `ClientError` yields `False`. -/
def vpc_exists (describeVpcsById : Except ClientErrorKind Unit) : Bool :=
  match describeVpcsById with
  | Except.error _ => false
  | Except.ok _ => true

/-- The Elastic IP pass of `destroy_ec2`: for every subnet, for every instance,
for every address associated with it, disassociate then release. -/
def eipReleaseStep (subnets : List SubnetEc2) : List Ev :=
  subnets.flatMap fun sn =>
    sn.instances.flatMap fun inst =>
      inst.eips.flatMap fun eip =>
        [Ev.disassociateAddress eip.associationId, Ev.releaseAddress eip.allocationId]

/-- The instance-termination pass of `destroy_ec2`: flatten the reservation
list into instance ids; when nonempty, terminate them and wait. -/
def terminateStep (reservations : List (List String)) : List Ev :=
  let instance_ids := reservations.flatMap (fun r => r)
  if instance_ids = [] then []
  else [Ev.terminateInstances instance_ids, Ev.waitTerminated instance_ids]

/-- `destroy_ec2(vpc_id, aws_region)`.  Returns `(some code, trace)` when the
script calls `sys.exit(code)`, else `(none, trace)`. -/
def destroy_ec2 (env : Env) (vpc_id aws_region : String) : Option Nat × List Ev :=
  match env.describeVpcsAll with
  | Except.error _ => (some 1, [Ev.msg credsMsg])
  | Except.ok _ =>
    if vpc_exists env.describeVpcsById = false then
      (none, [Ev.msg (vpcAbsentMsg vpc_id aws_region)])
    else
      (none, eipReleaseStep env.subnetsEc2 ++ terminateStep env.reservations1)

/-- The loop body of `destroy_services` over the split service list: a
recognized entry invokes its teardown function (propagating `sys.exit`), an
unrecognized one raises `KeyError`, which is caught and logged. -/
def destroyServicesGo (env : Env) (vpc_id aws_region : String) :
    List String → Option Nat × List Ev
  | [] => (none, [])
  | s :: rest =>
    if s = "ec2" then
      match destroy_ec2 env vpc_id aws_region with
      | (some c, t) => (some c, t)
      | (none, t) =>
        let r := destroyServicesGo env vpc_id aws_region rest
        (r.1, t ++ r.2)
    else
      let r := destroyServicesGo env vpc_id aws_region rest
      (r.1, Ev.logError ("destroying " ++ s ++ " not implemented") :: r.2)

/-- Python `services.split(",")` on the character list: split at every comma,
keeping empty pieces (so the empty string splits to `[""]`). -/
def pySplitAux : List Char → List Char → List String
  | [], acc => [String.mk acc.reverse]
  | c :: cs, acc =>
    if c = ',' then String.mk acc.reverse :: pySplitAux cs []
    else pySplitAux cs (c :: acc)

/-- Python `services.split(",")`. -/
def pySplit (s : String) : List String :=
  pySplitAux s.toList []

/-- `destroy_services(vpc_id, aws_region, services)`. -/
def destroy_services (env : Env) (vpc_id aws_region services : String) :
    Option Nat × List Ev :=
  destroyServicesGo env vpc_id aws_region (pySplit services)

/-- Transit-gateway-attachment pass: delete every attachment whose
`ResourceId` is this VPC. -/
def tgwStep (vpc_id : String) (atts : List TgwAttachment) : List Ev :=
  atts.flatMap fun a =>
    if a.resourceId = vpc_id then [Ev.deleteTgwAttachment a.transitGatewayAttachmentId]
    else []

/-- NAT-gateway pass (used for both the first and the second pass). -/
def natStep (nats : List String) : List Ev :=
  nats.map Ev.deleteNatGateway

/-- DHCP pass: the boto3 resource object `ec2.DhcpOptions("default")` is always
truthy, so the associate call is unconditional. -/
def dhcpStep (vpc_id : String) : List Ev :=
  [Ev.associateDhcpOptions vpc_id]

/-- Peering pass: a connection is deleted when this VPC is the accepter, and
again when it is the requester (two independent `if` statements in source). -/
def peeringStep (vpc_id : String) (ps : List Peering) : List Ev :=
  ps.flatMap fun p =>
    (if p.accepterVpcId = vpc_id then [Ev.deleteVpcPeering p.vpcPeeringConnectionId] else []) ++
      (if p.requesterVpcId = vpc_id then [Ev.deleteVpcPeering p.vpcPeeringConnectionId] else [])

/-- Endpoint pass. -/
def endpointStep (eps : List String) : List Ev :=
  eps.map Ev.deleteVpcEndpoint

/-- Network-ACL pass: only non-default ACLs are deleted. -/
def naclStep (ns : List Nacl) : List Ev :=
  ns.flatMap fun n => if n.isDefault then [] else [Ev.deleteNetworkAcl n.networkAclId]

/-- Corrective batch of one ENI wait iteration: for each interface, print its
id, force-detach it when it carries an attachment id, then delete it (the
`time.sleep(10)` between detach and delete is accounted in the clock). -/
def eniBatch (batch : List Eni) : List Ev :=
  batch.flatMap fun ni =>
    [Ev.msg ni.networkInterfaceId] ++
      (match ni.attachmentId with
       | some _ => [Ev.detachNetworkInterface ni.networkInterfaceId]
       | none => []) ++
      [Ev.deleteNetworkInterface ni.networkInterfaceId]

/-- The ENI wait loop (`while time.time() < timeout` with `timeout = start +
300`).  `idx` counts describe calls issued inside the loop, `clock` is the
accumulated sleep time since the loop started.  Each iteration tests the
collection; if empty it breaks with `reached_timeout = False`; otherwise it
re-describes, acts on that batch (sleeping 10 per interface), sleeps 30, and
loops.  Returns (trace, reached_timeout, final clock). -/
def eniWait (sched : Nat → List Eni) (idx clock : Nat) : List Ev × Bool × Nat :=
  if clock < 300 then
    match sched idx with
    | [] => ([], false, clock)
    | _ :: _ =>
      let batch := sched (idx + 1)
      let r := eniWait sched (idx + 2) (clock + (10 * batch.length + 30))
      (eniBatch batch ++ r.1, r.2)
  else ([], true, clock)
termination_by 300 - clock
decreasing_by omega

/-- Subnet pass: delete each interface still listed under the subnet, then the
subnet itself. -/
def subnetStep (ss : List Subnet) : List Ev :=
  ss.flatMap fun s =>
    s.networkInterfaceIds.map Ev.deleteNetworkInterface ++ [Ev.deleteSubnet s.subnetId]

/-- Per-table body of the first route-table loop.  Faithful to the source
nesting: the association loop is nested INSIDE the route loop, so for each
route the script sweeps all associations, disassociating each non-main one and
issuing a route-table delete right after each such disassociation. -/
def routeTablePass (rt : RouteTable) : List Ev :=
  rt.routes.flatMap fun r =>
    (if r.origin = "CreateRoute"
     then [Ev.deleteRoute rt.routeTableId r.destinationCidrBlock]
     else []) ++
      rt.associations.flatMap fun a =>
        if a.main then []
        else [Ev.disassociateRouteTable a.routeTableAssociationId,
              Ev.deleteRouteTable rt.routeTableId]

/-- First route-table loop over the (single) `describe_route_tables` snapshot. -/
def routeTablesPass (rts : List RouteTable) : List Ev :=
  rts.flatMap routeTablePass

/-- Per-table body of the second route-table loop: delete tables whose
association list is empty. -/
def routeTableCleanup (rt : RouteTable) : List Ev :=
  if rt.associations = [] then [Ev.deleteRouteTable rt.routeTableId] else []

/-- Second route-table loop (same snapshot as the first). -/
def routeTablesCleanup (rts : List RouteTable) : List Ev :=
  rts.flatMap routeTableCleanup

/-- The whole routes / associations / route-tables step. -/
def routeStep (rts : List RouteTable) : List Ev :=
  routeTablesPass rts ++ routeTablesCleanup rts

/-- Internet-gateway pass: detach then delete each gateway. -/
def igwStep (gws : List String) : List Ev :=
  gws.flatMap fun g => [Ev.detachInternetGateway g, Ev.deleteInternetGateway g]

/-- Security-group pass: only groups not named `default` are deleted. -/
def sgStep (sgs : List SecurityGroup) : List Ev :=
  sgs.flatMap fun g =>
    if g.groupName = "default" then [] else [Ev.deleteSecurityGroup g.groupId]

/-- `delete_vpc(vpc_id, aws_region, release_eips=False)`.  Returns the boolean
the Python function returns, plus the emitted trace. -/
def delete_vpc (env : Env) (vpc_id aws_region : String)
    (release_eips : Bool := false) : Bool × List Ev :=
  if vpc_exists env.describeVpcsById = false then
    (false, [Ev.msg (vpcAbsentMsg vpc_id aws_region)])
  else if env.reservations2.isEmpty = false then
    (false, [Ev.msg (runningMsg vpc_id)])
  else
    (true,
      tgwStep vpc_id env.tgwAttachments ++
      natStep env.natGateways1 ++
      dhcpStep vpc_id ++
      peeringStep vpc_id env.peerings ++
      endpointStep env.endpoints ++
      naclStep env.nacls ++
      (eniWait env.eniSchedule 0 0).1 ++
      subnetStep env.subnets ++
      routeStep env.routeTables ++
      natStep env.natGateways2 ++
      igwStep env.igws ++
      sgStep env.securityGroups ++
      [Ev.deleteVpcCall vpc_id])

/-- The `__main__` block: resolve the region, call `destroy_services` when a
(nonempty) services string was passed (propagating its `sys.exit`), then call
`delete_vpc` and print the outcome line.  The interpreter then falls off the
end of the script, so every path that does not hit `sys.exit` exits 0. -/
def mainRun (env : Env) (vpc_id : String) (regionArg : Option String)
    (defaultRegion : String) (services : Option String) : Nat × List Ev :=
  let aws_region := match regionArg with
    | some r => r
    | none => defaultRegion
  let sr : Option Nat × List Ev := match services with
    | some s => if s = "" then (none, []) else destroy_services env vpc_id aws_region s
    | none => (none, [])
  match sr with
  | (some code, t) => (code, t)
  | (none, t) =>
    let dv := delete_vpc env vpc_id aws_region
    (0, t ++ dv.2 ++
      [Ev.msg ((if dv.1 then "destroyed " else "unable to destroy ") ++
        vpc_id ++ " in " ++ aws_region)])

end VpcDestroy

namespace VpcDestroy

/-! Concrete environments used by counterexamples and witnesses. -/

/-- A healthy provider view of an entirely empty VPC. -/
def env0 : Env :=
  { describeVpcsAll := Except.ok (), describeVpcsById := Except.ok (),
    subnetsEc2 := [], reservations1 := [], reservations2 := [],
    tgwAttachments := [], natGateways1 := [], peerings := [], endpoints := [],
    nacls := [], eniSchedule := fun _ => [], subnets := [], routeTables := [],
    natGateways2 := [], igws := [], securityGroups := [] }

/-- `env0` plus one route table that has no routes but one non-main
association. -/
def env1 : Env :=
  { env0 with routeTables :=
      [{ routeTableId := "rtb-1", routes := [],
         associations := [{ main := false, routeTableAssociationId := "rtbassoc-1" }] }] }

/-- `env0` plus one route table with one user-created route and one non-main
association. -/
def env2 : Env :=
  { env0 with routeTables :=
      [{ routeTableId := "rtb-1",
         routes := [{ origin := "CreateRoute", destinationCidrBlock := "10.0.0.0/16" }],
         associations := [{ main := false, routeTableAssociationId := "rtbassoc-1" }] }] }

/-- `env0` plus one running reservation observed by the guard in `delete_vpc`. -/
def env3 : Env :=
  { env0 with reservations2 := [["i-0abc"]] }

/-- `env0` but the per-id describe fails with an auth/transport error. -/
def env4 : Env :=
  { env0 with describeVpcsById := Except.error ClientErrorKind.authFailure }

/-- `env0` but the per-id describe fails with NotFound (VPC already gone). -/
def env5 : Env :=
  { env0 with describeVpcsById := Except.error ClientErrorKind.notFound }

/-- `env0` plus one custom network ACL and one custom security group. -/
def env6 : Env :=
  { env0 with
      nacls := [{ networkAclId := "acl-1", isDefault := false }],
      securityGroups := [{ groupId := "sg-1", groupName := "web" }] }

/-- An ENI collection that never becomes empty: every describe returns the same
single unattached interface. -/
def constEniSched : Nat → List Eni :=
  fun _ => [{ networkInterfaceId := "eni-1", attachmentId := none }]

end VpcDestroy

namespace VpcDestroy

/-! Formal statements of the claims that turn out to be false on the code,
stated as written, so that a counterexample can refute them. -/

/-- Claim C1 as stated: whenever the teardown proceeds (network exists, guard
passes), every route table with a non-main association has a disassociate call
for that association issued before a delete call for that table, and every
disassociate call targets a non-main association. -/
def claimC1 : Prop :=
  ∀ (env : Env) (vpc_id aws_region : String),
    env.describeVpcsById = Except.ok () → env.reservations2 = [] →
      (∀ rt ∈ env.routeTables, ∀ a ∈ rt.associations, a.main = false →
        ∃ l1 l2, (delete_vpc env vpc_id aws_region).2 =
            l1 ++ Ev.disassociateRouteTable a.routeTableAssociationId :: l2 ∧
          Ev.deleteRouteTable rt.routeTableId ∈ l2) ∧
      (∀ i, Ev.disassociateRouteTable i ∈ (delete_vpc env vpc_id aws_region).2 →
        ∃ rt ∈ env.routeTables, ∃ a ∈ rt.associations,
          a.main = false ∧ a.routeTableAssociationId = i)

/-- Claim C3 as stated: an ENI collection that never becomes empty makes the
wait loop return timed-out after exactly the 300-second ceiling (never
blocking longer), and a poll observing emptiness returns converged
immediately. -/
def claimC3 : Prop :=
  ∀ sched : Nat → List Eni,
    ((∀ k, sched k ≠ []) →
      (eniWait sched 0 0).2.1 = true ∧ (eniWait sched 0 0).2.2 = 300) ∧
    (∀ idx clock, clock < 300 → sched idx = [] →
      eniWait sched idx clock = ([], false, clock))

/-- Claim C8 as stated, for the per-id inventory call of `vpc_exists`: an
auth/transport failure of that describe call aborts the whole run as fatal
(non-zero exit). -/
def claimC8 : Prop :=
  ∀ (env : Env) (vpc_id region dflt : String),
    env.describeVpcsById = Except.error ClientErrorKind.authFailure →
      (mainRun env vpc_id (some region) dflt none).1 ≠ 0

end VpcDestroy

namespace VpcDestroy

/-! Helper lemmas about the ENI wait loop. -/

/-- Unconditional unfolding equation for `eniWait`. -/
theorem eniWait_eq (sched : Nat → List Eni) (idx clock : Nat) :
    eniWait sched idx clock =
      if clock < 300 then
        match sched idx with
        | [] => ([], false, clock)
        | _ :: _ =>
          let batch := sched (idx + 1)
          let r := eniWait sched (idx + 2) (clock + (10 * batch.length + 30))
          (eniBatch batch ++ r.1, r.2)
      else ([], true, clock) := by
  rw [eniWait]

theorem eniWait_converged (sched : Nat → List Eni) (idx clock : Nat)
    (h : clock < 300) (he : sched idx = []) :
    eniWait sched idx clock = ([], false, clock) := by
  rw [eniWait_eq, if_pos h, he]

theorem eniWait_timedOut (sched : Nat → List Eni) (idx clock : Nat)
    (h : ¬ clock < 300) :
    eniWait sched idx clock = ([], true, clock) := by
  rw [eniWait_eq, if_neg h]

theorem eniWait_cont (sched : Nat → List Eni) (idx clock : Nat)
    (h : clock < 300) (x : Eni) (xs : List Eni) (he : sched idx = x :: xs) :
    eniWait sched idx clock =
      (eniBatch (sched (idx + 1)) ++
        (eniWait sched (idx + 2) (clock + (10 * (sched (idx + 1)).length + 30))).1,
       (eniWait sched (idx + 2) (clock + (10 * (sched (idx + 1)).length + 30))).2) := by
  rw [eniWait_eq, if_pos h, he]

/-- Every event emitted by the ENI wait loop is a printed interface id, a
detach, or an interface delete. -/
theorem eniWait_mem (sched : Nat → List Eni) :
    ∀ (n idx clock : Nat), 300 - clock ≤ n →
      ∀ e ∈ (eniWait sched idx clock).1,
        (∃ s, e = Ev.msg s) ∨ (∃ i, e = Ev.detachNetworkInterface i) ∨
          (∃ i, e = Ev.deleteNetworkInterface i) := by
  intro n
  induction n with
  | zero =>
    intro idx clock hn e he
    rw [eniWait_timedOut sched idx clock (by omega)] at he
    simp at he
  | succ n ih =>
    intro idx clock hn e he
    by_cases hc : clock < 300
    · cases hs : sched idx with
      | nil =>
        rw [eniWait_converged sched idx clock hc hs] at he
        simp at he
      | cons x xs =>
        rw [eniWait_cont sched idx clock hc x xs hs] at he
        simp only [List.mem_append] at he
        rcases he with he | he
        · simp only [eniBatch, List.mem_flatMap, List.mem_append] at he
          obtain ⟨ni, _, hni⟩ := he
          rcases hni with (hni | hni) | hni
          · simp at hni
            exact Or.inl ⟨ni.networkInterfaceId, hni⟩
          · match hA : ni.attachmentId with
            | some a => rw [hA] at hni; simp at hni
                        exact Or.inr (Or.inl ⟨ni.networkInterfaceId, hni⟩)
            | none => rw [hA] at hni; simp at hni
          · simp at hni
            exact Or.inr (Or.inr ⟨ni.networkInterfaceId, hni⟩)
        · exact ih (idx + 2) (clock + (10 * (sched (idx + 1)).length + 30)) (by omega) e he
    · rw [eniWait_timedOut sched idx clock hc] at he
      simp at he

end VpcDestroy

namespace VpcDestroy

/-! General helper lemmas shared by several claim proofs. -/

@[simp] theorem mem_ite_singleton {α : Type} (c : Prop) [Decidable c] (e x : α) :
    (e ∈ if c then [x] else ([] : List α)) ↔ c ∧ e = x := by
  split <;> simp_all

@[simp] theorem mem_ite_nil_singleton {α : Type} (c : Prop) [Decidable c] (e x : α) :
    (e ∈ if c then ([] : List α) else [x]) ↔ ¬c ∧ e = x := by
  split <;> simp_all

/-- Lifting an ordered-occurrence split from a middle chunk to a whole trace. -/
theorem exists_split_append (P Q M : List Ev) (x y : Ev)
    (h : ∃ l1 l2, M = l1 ++ x :: l2 ∧ y ∈ l2) :
    ∃ l1 l2, P ++ M ++ Q = l1 ++ x :: l2 ∧ y ∈ l2 := by
  obtain ⟨l1, l2, hM, hy⟩ := h
  exact ⟨P ++ l1, l2 ++ Q, by simp [hM, List.append_assoc], by simp [hy]⟩

/-- The trace of `delete_vpc` on the happy path (network exists, no running
instances observed by the guard). -/
theorem delete_vpc_trace (env : Env) (vpc_id aws_region : String)
    (hv : env.describeVpcsById = Except.ok ()) (hr : env.reservations2 = []) :
    delete_vpc env vpc_id aws_region =
      (true,
        tgwStep vpc_id env.tgwAttachments ++
        natStep env.natGateways1 ++
        dhcpStep vpc_id ++
        peeringStep vpc_id env.peerings ++
        endpointStep env.endpoints ++
        naclStep env.nacls ++
        (eniWait env.eniSchedule 0 0).1 ++
        subnetStep env.subnets ++
        routeStep env.routeTables ++
        natStep env.natGateways2 ++
        igwStep env.igws ++
        sgStep env.securityGroups ++
        [Ev.deleteVpcCall vpc_id]) := by
  simp [delete_vpc, vpc_exists, hv, hr]

/-- When the per-id describe raises any `ClientError`, `delete_vpc` takes the
"does not exist" early return. -/
theorem delete_vpc_absent (env : Env) (vpc_id aws_region : String)
    (k : ClientErrorKind) (hk : env.describeVpcsById = Except.error k) :
    delete_vpc env vpc_id aws_region =
      (false, [Ev.msg (vpcAbsentMsg vpc_id aws_region)]) := by
  simp [delete_vpc, vpc_exists, hk]

/-- When the guard observes running instances, `delete_vpc` refuses. -/
theorem delete_vpc_refusal (env : Env) (vpc_id aws_region : String)
    (hv : env.describeVpcsById = Except.ok ()) (hr : env.reservations2 ≠ []) :
    delete_vpc env vpc_id aws_region = (false, [Ev.msg (runningMsg vpc_id)]) := by
  have : env.reservations2.isEmpty = false := by
    cases h : env.reservations2 with
    | nil => exact absurd h hr
    | cons a l => simp [List.isEmpty]
  simp [delete_vpc, vpc_exists, hv, this]

/-- With valid credentials `destroy_ec2` never calls `sys.exit`. -/
theorem destroy_ec2_fst_none (env : Env) (vpc_id aws_region : String)
    (hc : env.describeVpcsAll = Except.ok ()) :
    (destroy_ec2 env vpc_id aws_region).1 = none := by
  simp only [destroy_ec2, hc]
  split <;> rfl

/-- Shape of the events `destroy_ec2` can emit. -/
theorem destroy_ec2_mem (env : Env) (vpc_id aws_region : String) (e : Ev)
    (h : e ∈ (destroy_ec2 env vpc_id aws_region).2) :
    (∃ s, e = Ev.msg s) ∨ (∃ i, e = Ev.disassociateAddress i) ∨
      (∃ i, e = Ev.releaseAddress i) ∨ (∃ l, e = Ev.terminateInstances l) ∨
      (∃ l, e = Ev.waitTerminated l) := by
  unfold destroy_ec2 at h
  match hd : env.describeVpcsAll with
  | Except.error k =>
    rw [hd] at h
    simp at h
    exact Or.inl ⟨credsMsg, h⟩
  | Except.ok u =>
    rw [hd] at h
    by_cases hx : vpc_exists env.describeVpcsById = false
    · rw [if_pos hx] at h
      simp at h
      exact Or.inl ⟨vpcAbsentMsg vpc_id aws_region, h⟩
    · rw [if_neg hx] at h
      simp only [List.mem_append] at h
      rcases h with h | h
      · simp only [eipReleaseStep, List.mem_flatMap] at h
        obtain ⟨sn, -, inst, -, eip, -, h⟩ := h
        simp at h
        rcases h with h | h
        · exact Or.inr (Or.inl ⟨eip.associationId, h⟩)
        · exact Or.inr (Or.inr (Or.inl ⟨eip.allocationId, h⟩))
      · simp only [terminateStep] at h
        split at h
        · simp at h
        · simp at h
          rcases h with h | h
          · exact Or.inr (Or.inr (Or.inr (Or.inl ⟨_, h⟩)))
          · exact Or.inr (Or.inr (Or.inr (Or.inr ⟨_, h⟩)))

/-- Shape of the events the `destroy_services` dispatcher can emit: the
`KeyError` log lines, plus whatever `destroy_ec2` emits. -/
theorem destroyServicesGo_mem (env : Env) (vpc_id aws_region : String) :
    ∀ (l : List String) (e : Ev), e ∈ (destroyServicesGo env vpc_id aws_region l).2 →
      (∃ s, e = Ev.logError s) ∨ e ∈ (destroy_ec2 env vpc_id aws_region).2 := by
  intro l
  induction l with
  | nil => intro e he; simp [destroyServicesGo] at he
  | cons s rest ih =>
    intro e he
    by_cases hs : s = "ec2"
    · rw [destroyServicesGo, if_pos hs] at he
      match hd : destroy_ec2 env vpc_id aws_region with
      | (some c, t) =>
        rw [hd] at he
        simp only at he
        exact Or.inr he
      | (none, t) =>
        rw [hd] at he
        simp only [List.mem_append] at he
        rcases he with he | he
        · exact Or.inr he
        · rcases ih e he with h | h
          · exact Or.inl h
          · rw [hd] at h
            exact Or.inr h
    · rw [destroyServicesGo, if_neg hs] at he
      simp only [List.mem_cons] at he
      rcases he with he | he
      · exact Or.inl ⟨_, he⟩
      · exact ih e he

/-- When creds are valid and the target VPC describe errors, every dispatched
`ec2` entry prints the absent line and the others log. -/
theorem destroyServicesGo_absent (env : Env) (vpc_id aws_region : String)
    (hc : env.describeVpcsAll = Except.ok ())
    (k : ClientErrorKind) (hk : env.describeVpcsById = Except.error k) :
    ∀ l : List String, destroyServicesGo env vpc_id aws_region l =
      (none, l.flatMap fun s =>
        if s = "ec2" then [Ev.msg (vpcAbsentMsg vpc_id aws_region)]
        else [Ev.logError ("destroying " ++ s ++ " not implemented")]) := by
  intro l
  induction l with
  | nil => simp [destroyServicesGo]
  | cons s rest ih =>
    by_cases hs : s = "ec2"
    · simp [destroyServicesGo, hs, destroy_ec2, hc, vpc_exists, hk, ih]
    · simp [destroyServicesGo, hs, ih]

/-- A dispatch list without an `ec2` entry only produces `KeyError` log lines
and never exits. -/
theorem destroyServicesGo_no_ec2 (env : Env) (vpc_id aws_region : String) :
    ∀ l : List String, "ec2" ∉ l →
      destroyServicesGo env vpc_id aws_region l =
        (none, l.map fun s => Ev.logError ("destroying " ++ s ++ " not implemented")) := by
  intro l
  induction l with
  | nil => intro _; simp [destroyServicesGo]
  | cons s rest ih =>
    intro hmem
    simp only [List.mem_cons, not_or] at hmem
    have hs : s ≠ "ec2" := fun h => hmem.1 h.symm
    simp [destroyServicesGo, hs, ih hmem.2]

/-- With valid credentials, the dispatcher runs every entry of the list in
order: recognized entries invoke `destroy_ec2`, unknown ones are logged. -/
theorem destroyServicesGo_ok (env : Env) (vpc_id aws_region : String)
    (hc : env.describeVpcsAll = Except.ok ()) :
    ∀ l : List String, destroyServicesGo env vpc_id aws_region l =
      (none, l.flatMap fun s =>
        if s = "ec2" then (destroy_ec2 env vpc_id aws_region).2
        else [Ev.logError ("destroying " ++ s ++ " not implemented")]) := by
  intro l
  induction l with
  | nil => simp [destroyServicesGo]
  | cons s rest ih =>
    by_cases hs : s = "ec2"
    · rw [destroyServicesGo, if_pos hs]
      match hd : destroy_ec2 env vpc_id aws_region with
      | (some c, t) =>
        have := destroy_ec2_fst_none env vpc_id aws_region hc
        rw [hd] at this
        simp at this
      | (none, t) =>
        simp only []
        rw [ih]
        simp [hs, hd]
    · rw [destroyServicesGo, if_neg hs, ih]
      simp [hs]

/-- Timeout behavior of the ENI wait loop when the collection never empties:
it always reports timed-out, the final clock is at or past the 300-second
ceiling, and it overshoots the ceiling by less than one corrective batch
(10 seconds per interface, bounded by `B` interfaces, plus the 30-second
inter-poll sleep). -/
theorem eniWait_timeout_bound (sched : Nat → List Eni) (B : Nat)
    (hne : ∀ k, sched k ≠ []) (hB : ∀ k, (sched k).length ≤ B) :
    ∀ (n idx clock : Nat), 300 - clock ≤ n → clock < 300 →
      (eniWait sched idx clock).2.1 = true ∧
        300 ≤ (eniWait sched idx clock).2.2 ∧
        (eniWait sched idx clock).2.2 < 330 + 10 * B := by
  intro n
  induction n with
  | zero => intro idx clock hn hc; omega
  | succ n ih =>
    intro idx clock hn hc
    cases hs : sched idx with
    | nil => exact absurd hs (hne idx)
    | cons x xs =>
      rw [eniWait_cont sched idx clock hc x xs hs]
      by_cases h2 : clock + (10 * (sched (idx + 1)).length + 30) < 300
      · exact ih (idx + 2) (clock + (10 * (sched (idx + 1)).length + 30)) (by omega) h2
      · rw [eniWait_timedOut sched (idx + 2) (clock + (10 * (sched (idx + 1)).length + 30)) h2]
        have := hB (idx + 1)
        refine ⟨rfl, ?_, ?_⟩
        · show 300 ≤ clock + (10 * (sched (idx + 1)).length + 30)
          omega
        · show clock + (10 * (sched (idx + 1)).length + 30) < 330 + 10 * B
          omega

end VpcDestroy

namespace VpcDestroy

/-! Claim C9. -/

/-- Claim C9: for every route table whose Routes list is empty, the route-table
pass issues no call at all for it (in particular no disassociate call for any
of its associations), and the table is deleted (by the cleanup loop) exactly
when its Associations list is empty — a consequence of the per-association
handling being nested inside the per-route loop. -/
theorem C9_empty_routes_table (rt : RouteTable) (h : rt.routes = []) :
    routeTablePass rt = [] ∧
      (routeTableCleanup rt = [Ev.deleteRouteTable rt.routeTableId] ↔
        rt.associations = []) ∧
      (rt.associations ≠ [] → routeTableCleanup rt = []) := by
  refine ⟨by simp [routeTablePass, h], ?_, ?_⟩
  · unfold routeTableCleanup
    split <;> simp_all
  · intro ha
    simp [routeTableCleanup, ha]

/-- Witness for C9 at a concrete route table with no routes. -/
theorem C9_empty_routes_table_witness :
    routeTablePass ⟨"rtb-9", [], [⟨false, "rtbassoc-9"⟩]⟩ = [] ∧
    routeTableCleanup ⟨"rtb-9", [], [⟨false, "rtbassoc-9"⟩]⟩ = [] := by
  have h := C9_empty_routes_table ⟨"rtb-9", [], [⟨false, "rtbassoc-9"⟩]⟩ rfl
  exact ⟨h.1, h.2.2 (by decide)⟩

/-! Claim C4. -/

/-- Claim C4 (code bug): the refusal path — network exists, a running instance
is observed, the termination service was not requested — prints the refusal
line and the failure line but exits with code 0, where the claim requires a
non-zero exit.  This theorem evaluates the program at that failing input. -/
theorem C4_refusal_exits_zero :
    mainRun env3 "vpc-1" (some "us-east-1") "us-east-1" none =
      (0, [Ev.msg (runningMsg "vpc-1"),
           Ev.msg "unable to destroy vpc-1 in us-east-1"]) := by
  decide

/-! Claim C3. -/

/-- Claim C3 is false as stated: on a collection that never empties the loop
does not stop at exactly the 300-second ceiling — with one interface per poll
the last iteration starts at 280s and sleeps 40 more seconds, ending at 320s. -/
theorem C3_counterexample : ¬ claimC3 := by
  intro h
  have h1 := (h constEniSched).1 (fun k => by simp [constEniSched])
  have h2 : (eniWait constEniSched 0 0).2.2 = 320 := by
    simp [eniWait_eq, constEniSched]
  omega

/-- Claim C3 amended: on a collection that never empties (batches bounded by
`B` interfaces) the loop reports timed-out at the first poll at or after the
300-second ceiling; the total blocked time is at least 300 seconds but may
overshoot by the final corrective batch, staying below 330 + 10·B seconds.  A
poll that observes an empty collection before the deadline returns converged
immediately, with no corrective action and no extra sleep. -/
theorem C3_amended (sched : Nat → List Eni) (B : Nat) :
    ((∀ k, sched k ≠ []) → (∀ k, (sched k).length ≤ B) →
      (eniWait sched 0 0).2.1 = true ∧
        300 ≤ (eniWait sched 0 0).2.2 ∧
        (eniWait sched 0 0).2.2 < 330 + 10 * B) ∧
    (∀ idx clock, clock < 300 → sched idx = [] →
      eniWait sched idx clock = ([], false, clock)) := by
  constructor
  · intro hne hB
    exact eniWait_timeout_bound sched B hne hB 300 0 0 (by omega) (by omega)
  · intro idx clock hc he
    exact eniWait_converged sched idx clock hc he

/-- Witness for C3 amended: the constant one-interface schedule times out at
320 seconds; the empty schedule converges at once. -/
theorem C3_amended_witness :
    ((eniWait constEniSched 0 0).2.1 = true ∧
      300 ≤ (eniWait constEniSched 0 0).2.2 ∧
      (eniWait constEniSched 0 0).2.2 < 340) ∧
    eniWait (fun _ => ([] : List Eni)) 0 0 = ([], false, 0) := by
  have h1 := (C3_amended constEniSched 1).1
    (fun k => by simp [constEniSched]) (fun k => by simp [constEniSched])
  have h2 := (C3_amended (fun _ => ([] : List Eni)) 1).2 0 0 (by omega) rfl
  exact ⟨⟨h1.1, h1.2.1, by simpa using h1.2.2⟩, h2⟩

/-! Claim C8. -/

/-- Claim C8 is false as stated: an auth/transport failure of the per-id
describe does not abort the run as fatal — `vpc_exists` catches every
`ClientError` alike, so the run takes the graceful "does not exist" path and
exits 0, indistinguishable from the NotFound case. -/
theorem C8_counterexample : ¬ claimC8 := by
  intro h
  exact h env4 "vpc-1" "us" "us" rfl (by decide)

/-- Claim C8 amended: every `ClientError` kind from the per-id describe —
auth/transport failure and NotFound alike — is caught by `vpc_exists` and
treated as "network absent": the run prints the absent line and the failure
line, issues no provider mutation, and exits 0; the error kinds are not
distinguished. -/
theorem C8_amended (env : Env) (vpc_id region dflt : String) (k : ClientErrorKind)
    (hk : env.describeVpcsById = Except.error k) :
    mainRun env vpc_id (some region) dflt none =
      (0, [Ev.msg (vpcAbsentMsg vpc_id region),
           Ev.msg ("unable to destroy " ++ vpc_id ++ " in " ++ region)]) ∧
    (mainRun env vpc_id (some region) dflt none).2.filter isMutation = [] := by
  have habs := delete_vpc_absent env vpc_id region k hk
  constructor
  · simp [mainRun, habs]
  · simp [mainRun, habs, isMutation]

/-- Witness for C8 amended: the auth-failure environment and the NotFound
environment produce the same graceful outcome. -/
theorem C8_amended_witness :
    mainRun env4 "vpc-1" (some "us") "us" none =
      (0, [Ev.msg (vpcAbsentMsg "vpc-1" "us"),
           Ev.msg "unable to destroy vpc-1 in us"]) ∧
    mainRun env5 "vpc-1" (some "us") "us" none =
      mainRun env4 "vpc-1" (some "us") "us" none := by
  have h4 := C8_amended env4 "vpc-1" "us" "us" ClientErrorKind.authFailure rfl
  have h5 := C8_amended env5 "vpc-1" "us" "us" ClientErrorKind.notFound rfl
  exact ⟨h4.1, by rw [h4.1, h5.1]⟩

/-! Claim C10. -/

/-- Claim C10: with valid credentials, `destroy_services` walks the whole
comma-separated list without raising or exiting; every entry other than `ec2`
contributes exactly its "not implemented" log line, and every `ec2` entry
contributes exactly one invocation of `destroy_ec2`. -/
theorem C10_unknown_service_skipped (env : Env) (vpc_id aws_region services : String)
    (hc : env.describeVpcsAll = Except.ok ()) :
    destroy_services env vpc_id aws_region services =
      (none, (pySplit services).flatMap fun s =>
        if s = "ec2" then (destroy_ec2 env vpc_id aws_region).2
        else [Ev.logError ("destroying " ++ s ++ " not implemented")]) := by
  unfold destroy_services
  exact destroyServicesGo_ok env vpc_id aws_region hc (pySplit services)

/-- Witness for C10: the list `"ec2,foo"` runs the ec2 teardown (a no-op trace
on the empty VPC) and logs the unknown `foo` entry without aborting. -/
theorem C10_unknown_service_skipped_witness :
    destroy_services env0 "vpc-1" "us" "ec2,foo" =
      (none, [Ev.logError "destroying foo not implemented"]) := by
  have h := C10_unknown_service_skipped env0 "vpc-1" "us" "ec2,foo" rfl
  rw [h]
  decide

end VpcDestroy

namespace VpcDestroy

/-! Claim C7. -/

/-- Claim C7: running the teardown against a network whose per-id describe
errors (e.g. a second run after a successful teardown) exits 0, prints the
"does not exist" report, and issues no provider mutation at all, whatever
service list was passed. -/
theorem C7_absent_no_deletes (env : Env) (vpc_id region dflt : String)
    (services : Option String) (k : ClientErrorKind)
    (hc : env.describeVpcsAll = Except.ok ())
    (hk : env.describeVpcsById = Except.error k) :
    (mainRun env vpc_id (some region) dflt services).1 = 0 ∧
    Ev.msg (vpcAbsentMsg vpc_id region) ∈ (mainRun env vpc_id (some region) dflt services).2 ∧
    (mainRun env vpc_id (some region) dflt services).2.filter isMutation = [] := by
  have habs := delete_vpc_absent env vpc_id region k hk
  match services with
  | none => simp [mainRun, habs, isMutation]
  | some s =>
    by_cases hs : s = ""
    · simp [mainRun, hs, habs, isMutation]
    · have hgo := destroyServicesGo_absent env vpc_id region hc k hk (pySplit s)
      have hmain : mainRun env vpc_id (some region) dflt (some s) =
          (0, ((pySplit s).flatMap fun e =>
              if e = "ec2" then [Ev.msg (vpcAbsentMsg vpc_id region)]
              else [Ev.logError ("destroying " ++ e ++ " not implemented")]) ++
            ([Ev.msg (vpcAbsentMsg vpc_id region)] ++
              [Ev.msg ("unable to destroy " ++ vpc_id ++ " in " ++ region)])) := by
        simp [mainRun, hs, destroy_services, hgo, habs]
      rw [hmain]
      refine ⟨rfl, by simp, ?_⟩
      simp only [List.filter_append, List.filter_flatMap]
      simp [isMutation, apply_ite (List.filter isMutation)]

/-- Witness for C7: a NotFound VPC with the ec2 service requested exits 0 and
emits no mutation. -/
theorem C7_absent_no_deletes_witness :
    (mainRun env5 "vpc-1" (some "us") "us" (some "ec2")).1 = 0 ∧
    Ev.msg (vpcAbsentMsg "vpc-1" "us") ∈
      (mainRun env5 "vpc-1" (some "us") "us" (some "ec2")).2 ∧
    (mainRun env5 "vpc-1" (some "us") "us" (some "ec2")).2.filter isMutation = [] :=
  C7_absent_no_deletes env5 "vpc-1" "us" "us" (some "ec2") ClientErrorKind.notFound rfl rfl

/-! Claim C5. -/

/-- Claim C5: when the network exists and the guard observes at least one
running reservation, and the instance-termination service was not requested
(no `ec2` entry in the service list, or no list at all), the run issues no
provider mutation whatsoever and prints the refusal directive. -/
theorem C5_guard_blocks (env : Env) (vpc_id region dflt : String)
    (services : Option String)
    (hv : env.describeVpcsById = Except.ok ())
    (hr : env.reservations2 ≠ [])
    (hs : ∀ s, services = some s → "ec2" ∉ pySplit s) :
    (mainRun env vpc_id (some region) dflt services).2.filter isMutation = [] ∧
    Ev.msg (runningMsg vpc_id) ∈ (mainRun env vpc_id (some region) dflt services).2 := by
  have href := delete_vpc_refusal env vpc_id region hv hr
  match services with
  | none => simp [mainRun, href, isMutation]
  | some s =>
    by_cases he : s = ""
    · simp [mainRun, he, href, isMutation]
    · have hgo := destroyServicesGo_no_ec2 env vpc_id region (pySplit s) (hs s rfl)
      have hmain : mainRun env vpc_id (some region) dflt (some s) =
          (0, (pySplit s).map
              (fun x => Ev.logError ("destroying " ++ x ++ " not implemented")) ++
            ([Ev.msg (runningMsg vpc_id)] ++
              [Ev.msg ("unable to destroy " ++ vpc_id ++ " in " ++ region)])) := by
        simp [mainRun, he, destroy_services, hgo, href]
      rw [hmain]
      constructor
      · simp only [List.filter_append, List.filter_map]
        simp [isMutation, Function.comp]
      · simp

/-- Witness for C5: the running-instance environment with an unrelated service
list produces zero mutations and the refusal line. -/
theorem C5_guard_blocks_witness :
    (mainRun env3 "vpc-1" (some "us") "us" (some "s3")).2.filter isMutation = [] ∧
    Ev.msg (runningMsg "vpc-1") ∈ (mainRun env3 "vpc-1" (some "us") "us" (some "s3")).2 :=
  C5_guard_blocks env3 "vpc-1" "us" "us" (some "s3") rfl (by decide)
    (fun s h => by injection h with h; subst h; decide)

end VpcDestroy

namespace VpcDestroy

/-! Claim C1: route-table ordering lemmas. -/

/-- Inside one table's pass, when the Routes list is nonempty, the first
non-main association encountered is disassociated and a delete of the table
follows immediately. -/
theorem routeTablePass_split (rt : RouteTable) (r : Route) (rs : List Route)
    (hroutes : rt.routes = r :: rs) (a : RtAssoc)
    (ha : a ∈ rt.associations) (hm : a.main = false) :
    ∃ l1 l2, routeTablePass rt =
      l1 ++ Ev.disassociateRouteTable a.routeTableAssociationId :: l2 ∧
      Ev.deleteRouteTable rt.routeTableId ∈ l2 := by
  obtain ⟨p, q, hassoc⟩ := List.append_of_mem ha
  refine ⟨(if r.origin = "CreateRoute"
        then [Ev.deleteRoute rt.routeTableId r.destinationCidrBlock] else []) ++
      p.flatMap (fun x => if x.main then []
        else [Ev.disassociateRouteTable x.routeTableAssociationId,
              Ev.deleteRouteTable rt.routeTableId]),
    Ev.deleteRouteTable rt.routeTableId ::
      (q.flatMap (fun x => if x.main then []
        else [Ev.disassociateRouteTable x.routeTableAssociationId,
              Ev.deleteRouteTable rt.routeTableId]) ++
       rs.flatMap (fun r2 =>
        (if r2.origin = "CreateRoute"
         then [Ev.deleteRoute rt.routeTableId r2.destinationCidrBlock] else []) ++
          rt.associations.flatMap (fun x => if x.main then []
            else [Ev.disassociateRouteTable x.routeTableAssociationId,
                  Ev.deleteRouteTable rt.routeTableId]))),
    ?_, by simp⟩
  simp only [routeTablePass]
  rw [hroutes, hassoc]
  simp [List.flatMap_append, hm, List.append_assoc]

/-- Lifting `routeTablePass_split` to the whole `delete_vpc` trace on the
happy path. -/
theorem delete_vpc_split (env : Env) (vpc_id aws_region : String)
    (hv : env.describeVpcsById = Except.ok ()) (hr : env.reservations2 = [])
    (rt : RouteTable) (hrt : rt ∈ env.routeTables)
    (r : Route) (rs : List Route) (hroutes : rt.routes = r :: rs)
    (a : RtAssoc) (ha : a ∈ rt.associations) (hm : a.main = false) :
    ∃ l1 l2, (delete_vpc env vpc_id aws_region).2 =
      l1 ++ Ev.disassociateRouteTable a.routeTableAssociationId :: l2 ∧
      Ev.deleteRouteTable rt.routeTableId ∈ l2 := by
  obtain ⟨u, v, hu⟩ := List.append_of_mem hrt
  have hdec : (delete_vpc env vpc_id aws_region).2 =
      (tgwStep vpc_id env.tgwAttachments ++ natStep env.natGateways1 ++
        dhcpStep vpc_id ++ peeringStep vpc_id env.peerings ++
        endpointStep env.endpoints ++ naclStep env.nacls ++
        (eniWait env.eniSchedule 0 0).1 ++ subnetStep env.subnets ++
        u.flatMap routeTablePass) ++
      routeTablePass rt ++
      (v.flatMap routeTablePass ++ routeTablesCleanup env.routeTables ++
        natStep env.natGateways2 ++ igwStep env.igws ++
        sgStep env.securityGroups ++ [Ev.deleteVpcCall vpc_id]) := by
    rw [delete_vpc_trace env vpc_id aws_region hv hr]
    simp only [routeStep, routeTablesPass]
    rw [hu]
    simp [List.flatMap_append, List.append_assoc]
  rw [hdec]
  exact exists_split_append _ _ _ _ _
    (routeTablePass_split rt r rs hroutes a ha hm)

/-- Every disassociate call in the `delete_vpc` trace targets a non-main
association of one of the listed route tables. -/
theorem delete_vpc_disassoc_src (env : Env) (vpc_id aws_region : String)
    (i : String)
    (h : Ev.disassociateRouteTable i ∈ (delete_vpc env vpc_id aws_region).2) :
    ∃ rt ∈ env.routeTables, ∃ a ∈ rt.associations,
      a.main = false ∧ a.routeTableAssociationId = i := by
  by_cases hvx : vpc_exists env.describeVpcsById = false
  · simp only [delete_vpc, if_pos hvx] at h
    simp at h
  · by_cases hre : env.reservations2.isEmpty = false
    · simp only [delete_vpc, if_neg hvx, if_pos hre] at h
      simp at h
    · simp only [delete_vpc, if_neg hvx, if_neg hre] at h
      simp only [List.mem_append] at h
      simp only [tgwStep, natStep, dhcpStep, peeringStep, endpointStep, naclStep,
        subnetStep, igwStep, sgStep, List.mem_flatMap, List.mem_map,
        List.mem_cons, List.mem_singleton, List.mem_append,
        mem_ite_singleton, mem_ite_nil_singleton] at h
      simp only [List.not_mem_nil, or_false, false_or, exists_false,
        and_false, false_and, reduceCtorEq, exists_const] at h
      rcases h with h | h
      · rcases eniWait_mem env.eniSchedule 300 0 0 (by omega) _ h with
          ⟨s, hs⟩ | ⟨j, hj⟩ | ⟨j, hj⟩ <;> simp_all
      · simp only [routeStep, routeTablesPass, routeTablesCleanup,
          List.mem_append, List.mem_flatMap] at h
        rcases h with ⟨rt, hrt, hpass⟩ | ⟨rt, hrt, hclean⟩
        · simp only [routeTablePass, List.mem_flatMap, List.mem_append] at hpass
          obtain ⟨r, -, hpass⟩ := hpass
          rcases hpass with hpass | hpass
          · rw [mem_ite_singleton] at hpass
            simp at hpass
          · obtain ⟨a, haa, hmem⟩ := hpass
            by_cases hmain : a.main
            · simp [hmain] at hmem
            · simp [hmain] at hmem
              exact ⟨rt, hrt, a, haa, by simpa using hmain, hmem.symm⟩
        · simp [routeTableCleanup] at hclean

end VpcDestroy

namespace VpcDestroy

/-- Claim C1 is false as stated: a route table whose Routes list is empty but
which has a non-main association never receives the disassociate call (nor any
table delete in the per-table pass), because the per-association handling is
nested inside the per-route loop — with no routes, the association loop body
never runs. -/
theorem C1_counterexample : ¬ claimC1 := by
  intro h
  obtain ⟨l1, l2, heq, -⟩ :=
    (h env1 "vpc-1" "us" rfl rfl).1 ⟨"rtb-1", [], [⟨false, "rtbassoc-1"⟩]⟩
      (by decide) ⟨false, "rtbassoc-1"⟩ (by decide) rfl
  have hmem : Ev.disassociateRouteTable "rtbassoc-1" ∈
      (delete_vpc env1 "vpc-1" "us").2 := by
    rw [heq]
    simp
  have he := eniWait_converged (fun _ => []) 0 0 (by omega) rfl
  have htr : (delete_vpc env1 "vpc-1" "us").2 =
      [Ev.associateDhcpOptions "vpc-1", Ev.deleteVpcCall "vpc-1"] := by
    simp [delete_vpc, env1, env0, vpc_exists, tgwStep, natStep, dhcpStep,
      peeringStep, endpointStep, naclStep, subnetStep, routeStep,
      routeTablesPass, routeTablesCleanup, routeTablePass, routeTableCleanup,
      igwStep, sgStep, he]
  rw [htr] at hmem
  simp at hmem

/-- Claim C1 amended: on the happy path, (a) every route table that has at
least one route and a non-main association gets a disassociate call for that
association with a delete call for the table occurring later in the trace (in
fact immediately after the first such disassociation — though with several
non-main associations a table delete is also issued between successive
disassociations, and once per route/association pair); (b) a route table with
no routes gets neither call in the per-table pass; (c) every disassociate call
issued anywhere in the teardown targets a non-main association of a listed
route table — a main association never receives one. -/
theorem C1_route_table_ordering (env : Env) (vpc_id aws_region : String)
    (hv : env.describeVpcsById = Except.ok ()) (hr : env.reservations2 = []) :
    (∀ rt ∈ env.routeTables, rt.routes ≠ [] → ∀ a ∈ rt.associations,
      a.main = false →
      ∃ l1 l2, (delete_vpc env vpc_id aws_region).2 =
          l1 ++ Ev.disassociateRouteTable a.routeTableAssociationId :: l2 ∧
        Ev.deleteRouteTable rt.routeTableId ∈ l2) ∧
    (∀ rt ∈ env.routeTables, rt.routes = [] → routeTablePass rt = []) ∧
    (∀ i, Ev.disassociateRouteTable i ∈ (delete_vpc env vpc_id aws_region).2 →
      ∃ rt ∈ env.routeTables, ∃ a ∈ rt.associations,
        a.main = false ∧ a.routeTableAssociationId = i) := by
  refine ⟨?_, ?_, ?_⟩
  · intro rt hrt hne a ha hm
    cases hroutes : rt.routes with
    | nil => exact absurd hroutes hne
    | cons r rs =>
      exact delete_vpc_split env vpc_id aws_region hv hr rt hrt r rs hroutes a ha hm
  · intro rt _ hroutes
    simp [routeTablePass, hroutes]
  · intro i hi
    exact delete_vpc_disassoc_src env vpc_id aws_region i hi

/-- Witness for C1 amended: in `env2` the non-main association is
disassociated and the table deleted. -/
theorem C1_route_table_ordering_witness :
    Ev.disassociateRouteTable "rtbassoc-1" ∈ (delete_vpc env2 "vpc-1" "us").2 ∧
    Ev.deleteRouteTable "rtb-1" ∈ (delete_vpc env2 "vpc-1" "us").2 := by
  obtain ⟨l1, l2, heq, hdel⟩ :=
    (C1_route_table_ordering env2 "vpc-1" "us" rfl rfl).1
      ⟨"rtb-1", [⟨"CreateRoute", "10.0.0.0/16"⟩], [⟨false, "rtbassoc-1"⟩]⟩
      (by decide) (by decide) ⟨false, "rtbassoc-1"⟩ (by decide) rfl
  constructor
  · rw [heq]
    simp
  · rw [heq]
    simp only [List.mem_append, List.mem_cons]
    exact Or.inr (Or.inr hdel)

end VpcDestroy

namespace VpcDestroy

/-! Claim C2. -/

/-- Claim C2: with valid credentials, an existing network and no running
instances observed by the guard, a run that requests the ec2 service executes
exactly the fixed plan: Elastic IP release, instance termination, transit
gateway attachments, first NAT pass, DHCP reset, peering connections,
endpoints, custom ACLs, the ENI wait, subnets, routes/associations/route
tables, second NAT pass, internet gateways, custom security groups, and the
VPC itself, in that order, exiting 0; and every step whose listing is empty
contributes no events at all. -/
theorem C2_plan_order (env : Env) (vpc_id region dflt : String)
    (hc : env.describeVpcsAll = Except.ok ())
    (hv : env.describeVpcsById = Except.ok ())
    (hr : env.reservations2 = []) :
    mainRun env vpc_id (some region) dflt (some "ec2") =
      (0,
        eipReleaseStep env.subnetsEc2 ++ terminateStep env.reservations1 ++
        tgwStep vpc_id env.tgwAttachments ++ natStep env.natGateways1 ++
        dhcpStep vpc_id ++ peeringStep vpc_id env.peerings ++
        endpointStep env.endpoints ++ naclStep env.nacls ++
        (eniWait env.eniSchedule 0 0).1 ++ subnetStep env.subnets ++
        routeStep env.routeTables ++ natStep env.natGateways2 ++
        igwStep env.igws ++ sgStep env.securityGroups ++
        [Ev.deleteVpcCall vpc_id] ++
        [Ev.msg ("destroyed " ++ vpc_id ++ " in " ++ region)]) ∧
    (env.subnetsEc2 = [] → eipReleaseStep env.subnetsEc2 = []) ∧
    (env.reservations1 = [] → terminateStep env.reservations1 = []) ∧
    (env.tgwAttachments = [] → tgwStep vpc_id env.tgwAttachments = []) ∧
    (env.natGateways1 = [] → natStep env.natGateways1 = []) ∧
    (env.peerings = [] → peeringStep vpc_id env.peerings = []) ∧
    (env.endpoints = [] → endpointStep env.endpoints = []) ∧
    (env.nacls = [] → naclStep env.nacls = []) ∧
    (env.eniSchedule 0 = [] → (eniWait env.eniSchedule 0 0).1 = []) ∧
    (env.subnets = [] → subnetStep env.subnets = []) ∧
    (env.routeTables = [] → routeStep env.routeTables = []) ∧
    (env.natGateways2 = [] → natStep env.natGateways2 = []) ∧
    (env.igws = [] → igwStep env.igws = []) ∧
    (env.securityGroups = [] → sgStep env.securityGroups = []) := by
  have hsvc : destroy_services env vpc_id region "ec2" =
      (none, eipReleaseStep env.subnetsEc2 ++ terminateStep env.reservations1) := by
    rw [destroy_services, show pySplit "ec2" = ["ec2"] from by decide,
      destroyServicesGo_ok env vpc_id region hc ["ec2"]]
    simp [destroy_ec2, hc, vpc_exists, hv]
  have hdel := delete_vpc_trace env vpc_id region hv hr
  refine ⟨?_, fun h => by simp [eipReleaseStep, h],
    fun h => by simp [terminateStep, h],
    fun h => by simp [tgwStep, h],
    fun h => by simp [natStep, h],
    fun h => by simp [peeringStep, h],
    fun h => by simp [endpointStep, h],
    fun h => by simp [naclStep, h],
    fun h => by rw [eniWait_converged env.eniSchedule 0 0 (by omega) h],
    fun h => by simp [subnetStep, h],
    fun h => by simp [routeStep, routeTablesPass, routeTablesCleanup, h],
    fun h => by simp [natStep, h],
    fun h => by simp [igwStep, h],
    fun h => by simp [sgStep, h]⟩
  simp only [mainRun]
  rw [if_neg (by decide : ¬ ("ec2" = ""))]
  rw [hsvc, hdel]
  simp [List.append_assoc]

/-- Witness for C2 on the empty VPC: a full run with the ec2 service makes
exactly the DHCP reset, the VPC delete call and the success line, exit 0. -/
theorem C2_plan_order_witness :
    mainRun env0 "vpc-1" (some "us") "us" (some "ec2") =
      (0, [Ev.associateDhcpOptions "vpc-1", Ev.deleteVpcCall "vpc-1",
           Ev.msg "destroyed vpc-1 in us"]) := by
  have h := (C2_plan_order env0 "vpc-1" "us" "us" rfl rfl rfl).1
  rw [h]
  have he := eniWait_converged (fun _ => []) 0 0 (by omega) rfl
  simp [env0, eipReleaseStep, terminateStep, tgwStep, natStep, dhcpStep,
    peeringStep, endpointStep, naclStep, subnetStep, routeStep,
    routeTablesPass, routeTablesCleanup, igwStep, sgStep, he]

end VpcDestroy

namespace VpcDestroy

/-! Claim C6: default-resource protection. -/

@[simp] theorem mem_ite_nil_else {α : Type} (c : Prop) [Decidable c] (e : α)
    (l : List α) : (e ∈ if c then ([] : List α) else l) ↔ ¬c ∧ e ∈ l := by
  split <;> simp_all

@[simp] theorem mem_ite_then_nil {α : Type} (c : Prop) [Decidable c] (e : α)
    (l : List α) : (e ∈ if c then l else ([] : List α)) ↔ c ∧ e ∈ l := by
  split <;> simp_all

/-- Every network-ACL delete call of `delete_vpc` targets the id of a listed
non-default ACL. -/
theorem delete_vpc_nacl_src (env : Env) (vpc_id aws_region i : String)
    (h : Ev.deleteNetworkAcl i ∈ (delete_vpc env vpc_id aws_region).2) :
    ∃ n ∈ env.nacls, n.isDefault = false ∧ n.networkAclId = i := by
  by_cases hvx : vpc_exists env.describeVpcsById = false
  · simp only [delete_vpc, if_pos hvx] at h
    simp at h
  · by_cases hre : env.reservations2.isEmpty = false
    · simp only [delete_vpc, if_neg hvx, if_pos hre] at h
      simp at h
    · simp only [delete_vpc, if_neg hvx, if_neg hre] at h
      simp only [List.mem_append] at h
      simp only [tgwStep, natStep, dhcpStep, peeringStep, endpointStep,
        naclStep, subnetStep, igwStep, sgStep, routeStep, routeTablesPass,
        routeTablesCleanup, routeTablePass, routeTableCleanup,
        List.mem_flatMap, List.mem_map, List.mem_cons, List.mem_singleton,
        List.mem_append, mem_ite_singleton, mem_ite_nil_singleton,
        mem_ite_nil_else, mem_ite_then_nil] at h
      simp only [List.not_mem_nil, or_false, false_or, exists_false,
        and_false, false_and, reduceCtorEq, exists_const,
        Ev.deleteNetworkAcl.injEq] at h
      rcases h with h | h
      · obtain ⟨n, hn, hd, hi⟩ := h
        exact ⟨n, hn, by simpa using hd, hi.symm⟩
      · rcases eniWait_mem env.eniSchedule 300 0 0 (by omega) _ h with
          ⟨s, hs⟩ | ⟨j, hj⟩ | ⟨j, hj⟩ <;> simp_all

/-- Every security-group delete call of `delete_vpc` targets the id of a
listed group whose name is not `default`. -/
theorem delete_vpc_sg_src (env : Env) (vpc_id aws_region i : String)
    (h : Ev.deleteSecurityGroup i ∈ (delete_vpc env vpc_id aws_region).2) :
    ∃ g ∈ env.securityGroups, g.groupName ≠ "default" ∧ g.groupId = i := by
  by_cases hvx : vpc_exists env.describeVpcsById = false
  · simp only [delete_vpc, if_pos hvx] at h
    simp at h
  · by_cases hre : env.reservations2.isEmpty = false
    · simp only [delete_vpc, if_neg hvx, if_pos hre] at h
      simp at h
    · simp only [delete_vpc, if_neg hvx, if_neg hre] at h
      simp only [List.mem_append] at h
      simp only [tgwStep, natStep, dhcpStep, peeringStep, endpointStep,
        naclStep, subnetStep, igwStep, sgStep, routeStep, routeTablesPass,
        routeTablesCleanup, routeTablePass, routeTableCleanup,
        List.mem_flatMap, List.mem_map, List.mem_cons, List.mem_singleton,
        List.mem_append, mem_ite_singleton, mem_ite_nil_singleton,
        mem_ite_nil_else, mem_ite_then_nil] at h
      simp only [List.not_mem_nil, or_false, false_or, exists_false,
        and_false, false_and, reduceCtorEq, exists_const,
        Ev.deleteSecurityGroup.injEq] at h
      rcases h with h | h
      · rcases eniWait_mem env.eniSchedule 300 0 0 (by omega) _ h with
          ⟨s, hs⟩ | ⟨j, hj⟩ | ⟨j, hj⟩ <;> simp_all
      · obtain ⟨g, hg, hd, hi⟩ := h
        exact ⟨g, hg, hd, hi.symm⟩

/-- Every event of a whole `__main__` run is printed output, a logged
`KeyError`, an event of `destroy_ec2`, or an event of `delete_vpc`. -/
theorem mainRun_mem (env : Env) (vpc_id : String) (regionArg : Option String)
    (dflt : String) (services : Option String) (e : Ev)
    (h : e ∈ (mainRun env vpc_id regionArg dflt services).2) :
    (∃ s, e = Ev.msg s) ∨ (∃ s, e = Ev.logError s) ∨
    (∃ r, e ∈ (destroy_ec2 env vpc_id r).2) ∨
    (∃ r, e ∈ (delete_vpc env vpc_id r).2) := by
  obtain ⟨R, hxR⟩ : ∃ R, (match regionArg with | some r => r | none => dflt) = R :=
    ⟨_, rfl⟩
  cases services with
  | none =>
    simp only [mainRun, hxR] at h
    simp only [List.nil_append, List.mem_append, List.mem_singleton] at h
    rcases h with h | h
    · exact Or.inr (Or.inr (Or.inr ⟨R, h⟩))
    · exact Or.inl ⟨_, h⟩
  | some s =>
    by_cases hs : s = ""
    · simp only [mainRun, hxR, hs, if_pos] at h
      simp only [List.nil_append, List.mem_append, List.mem_singleton] at h
      rcases h with h | h
      · exact Or.inr (Or.inr (Or.inr ⟨R, h⟩))
      · exact Or.inl ⟨_, h⟩
    · simp only [mainRun, hxR, if_neg hs] at h
      rcases hds : destroy_services env vpc_id R s with ⟨f, t⟩
      have hds2 : destroyServicesGo env vpc_id R (pySplit s) = (f, t) := by
        rw [← destroy_services]
        exact hds
      rw [hds] at h
      match f with
      | some code =>
        simp only at h
        have hgo : e ∈ (destroyServicesGo env vpc_id R (pySplit s)).2 := by
          rw [hds2]
          exact h
        rcases destroyServicesGo_mem env vpc_id R (pySplit s) e hgo with hl | hd
        · exact Or.inr (Or.inl hl)
        · exact Or.inr (Or.inr (Or.inl ⟨R, hd⟩))
      | none =>
        simp only [List.mem_append, List.mem_singleton] at h
        rcases h with (h | h) | h
        · have hgo : e ∈ (destroyServicesGo env vpc_id R (pySplit s)).2 := by
            rw [hds2]
            exact h
          rcases destroyServicesGo_mem env vpc_id R (pySplit s) e hgo with hl | hd
          · exact Or.inr (Or.inl hl)
          · exact Or.inr (Or.inr (Or.inl ⟨R, hd⟩))
        · exact Or.inr (Or.inr (Or.inr ⟨R, h⟩))
        · exact Or.inl ⟨_, h⟩

/-- Claim C6: in every run configuration, every network-ACL delete call
targets a non-default ACL and every security-group delete call targets a group
not named `default`; a default ACL or default group never receives a delete
call. -/
theorem C6_default_protection (env : Env) (vpc_id : String)
    (regionArg : Option String) (dflt : String) (services : Option String)
    (i : String) :
    (Ev.deleteNetworkAcl i ∈ (mainRun env vpc_id regionArg dflt services).2 →
      ∃ n ∈ env.nacls, n.isDefault = false ∧ n.networkAclId = i) ∧
    (Ev.deleteSecurityGroup i ∈ (mainRun env vpc_id regionArg dflt services).2 →
      ∃ g ∈ env.securityGroups, g.groupName ≠ "default" ∧ g.groupId = i) := by
  constructor
  · intro h
    rcases mainRun_mem env vpc_id regionArg dflt services _ h with
      h2 | h2 | ⟨r, hmem⟩ | ⟨r, hmem⟩
    · simp at h2
    · simp at h2
    · rcases destroy_ec2_mem env vpc_id r _ hmem with h3 | h3 | h3 | h3 | h3 <;>
        simp at h3
    · exact delete_vpc_nacl_src env vpc_id r i hmem
  · intro h
    rcases mainRun_mem env vpc_id regionArg dflt services _ h with
      h2 | h2 | ⟨r, hmem⟩ | ⟨r, hmem⟩
    · simp at h2
    · simp at h2
    · rcases destroy_ec2_mem env vpc_id r _ hmem with h3 | h3 | h3 | h3 | h3 <;>
        simp at h3
    · exact delete_vpc_sg_src env vpc_id r i hmem

/-- Witness for C6: in `env6` the issued ACL and group delete calls are for
the custom ACL and the custom group. -/
theorem C6_default_protection_witness :
    (∃ n ∈ env6.nacls, n.isDefault = false ∧ n.networkAclId = "acl-1") ∧
    (∃ g ∈ env6.securityGroups, g.groupName ≠ "default" ∧ g.groupId = "sg-1") := by
  have he := eniWait_converged (fun _ => []) 0 0 (by omega) rfl
  have htr : (mainRun env6 "vpc-1" (some "us") "us" none).2 =
      [Ev.associateDhcpOptions "vpc-1", Ev.deleteNetworkAcl "acl-1",
       Ev.deleteSecurityGroup "sg-1", Ev.deleteVpcCall "vpc-1",
       Ev.msg "destroyed vpc-1 in us"] := by
    simp [mainRun, delete_vpc, env6, env0, vpc_exists, tgwStep, natStep,
      dhcpStep, peeringStep, endpointStep, naclStep, subnetStep, routeStep,
      routeTablesPass, routeTablesCleanup, igwStep, sgStep, he]
  refine ⟨(C6_default_protection env6 "vpc-1" (some "us") "us" none "acl-1").1 ?_,
    (C6_default_protection env6 "vpc-1" (some "us") "us" none "sg-1").2 ?_⟩
  · rw [htr]
    simp
  · rw [htr]
    simp

end VpcDestroy
